import Mathlib

/-!
# Verification of the MTTD/MTTR dashboard pipeline (src/app.py)

A shallow embedding of the transform pipeline of the dashboard:
loading (timestamp coercion, Month-Year bucketing, Priority
categorisation), the per-row MTTD/MTTR calculators, the month/priority
filter, the grouped aggregation, the full summary tables with their
trailing AVG row, and the Excel export of the filtered data.

Timestamps are modelled as calendar date-times converted to a linear
count of seconds (the proleptic Gregorian day-count algorithm), so that
pandas timestamp subtraction `(a - b).total_seconds() / 60` becomes exact
rational arithmetic.  Spreadsheet cells are modelled by an explicit
`Cell` type with a null value standing for NaN/NaT.
-/

namespace MTTD

/-- A calendar date-time, the model of one parsed pandas timestamp. -/
structure DateTime where
  year : Nat
  month : Nat
  day : Nat
  hour : Nat
  minute : Nat
  second : Nat
  deriving DecidableEq, Repr

/-- Days since the Unix epoch of a proleptic Gregorian civil date
(the standard era-based day-count algorithm, for years at least 1). -/
def daysFromCivil (y m d : Nat) : Int :=
  let y2 := if m ≤ 2 then y - 1 else y
  let era := y2 / 400
  let yoe := y2 - era * 400
  let mp := (m + 9) % 12
  let doy := (153 * mp + 2) / 5 + d - 1
  let doe := yoe * 365 + yoe / 4 - yoe / 100 + doy
  (era * 146097 + doe : Int) - 719468

/-- Seconds since the Unix epoch of a date-time; the linear timeline on
which pandas subtracts two timestamps. -/
def toSeconds (t : DateTime) : Int :=
  daysFromCivil t.year t.month t.day * 86400 + t.hour * 3600 + t.minute * 60 + t.second

/-- The pandas difference `(a - b).total_seconds() / 60`, as an exact rational. -/
def minutesBetween (a b : DateTime) : ℚ :=
  ((toSeconds a - toSeconds b : Int) : ℚ) / 60

/-- Python `str.strip()`: drop leading and trailing whitespace. -/
def pyStrip (s : String) : String :=
  ⟨((s.data.dropWhile Char.isWhitespace).reverse.dropWhile Char.isWhitespace).reverse⟩

/-- Python `str.lower()` (the data here is plain ASCII). -/
def pyLower (s : String) : String := ⟨s.data.map Char.toLower⟩

/-- Split a character list at every dash. -/
def splitDashAux : List Char → List Char → List (List Char)
  | [], acc => [acc.reverse]
  | c :: cs, acc =>
      if c = '-' then acc.reverse :: splitDashAux cs []
      else splitDashAux cs (c :: acc)

/-- Split a string at every dash, as used to read a "Mon-YYYY" label. -/
def splitDash (s : String) : List String := (splitDashAux s.data []).map List.asString

/-- The numeric value of a nonempty all-digit character list. -/
def digitsVal (l : List Char) : Option Nat :=
  if l ≠ [] ∧ l.all Char.isDigit then
    some (l.foldl (fun n c => n * 10 + (c.toNat - 48)) 0)
  else none

/-- The three-letter month abbreviations of `strftime` format `%b`. -/
def monthAbbrevs : List String :=
  ["Jan", "Feb", "Mar", "Apr", "May", "Jun", "Jul", "Aug", "Sep", "Oct", "Nov", "Dec"]

/-- Decimal digits of a natural number (fuel-driven so the kernel can
evaluate it). -/
def natChars : Nat → Nat → List Char
  | 0, _ => []
  | fuel + 1, n =>
      if n < 10 then [Char.ofNat (n + 48)]
      else natChars fuel (n / 10) ++ [Char.ofNat (n % 10 + 48)]

/-- Decimal string of a natural number. -/
def natStr (n : Nat) : String := ⟨natChars (n + 1) n⟩

/-- Format `strftime("%b-%Y")` of pandas on the model date-time: the
"Mon-YYYY" bucket label of line 21 of app.py. -/
def fmtMonthYear (t : DateTime) : String :=
  monthAbbrevs.getD (t.month - 1) "" ++ "-" ++ natStr t.year

/-- Parser `pd.to_datetime(x, format="%b-%Y")`: read a "Mon-YYYY" label back
to its (year, month) pair. -/
def parseMonthYear (s : String) : Option (Nat × Nat) :=
  match splitDash s with
  | [mon, yr] =>
      match monthAbbrevs.indexOf? mon, digitsVal yr.data with
      | some i, some y => some (y, i + 1)
      | _, _ => none
  | _ => none

/-- The chronological sort key of a "Mon-YYYY" label: months since year
zero of the parsed date (labels produced by `fmtMonthYear` always
parse). -/
def monthKey (s : String) : Nat :=
  match parseMonthYear s with
  | some (y, m) => y * 12 + m
  | none => 0

/-- Plain lexical (code-point) string order, the order the spec
contrasts with chronological order. -/
def strLexLt (a b : String) : Prop := List.Lex (· < ·) a.data b.data

instance : DecidableRel strLexLt := fun a b => by
  unfold strLexLt; infer_instance

/-- A spreadsheet cell as held in a pandas column: a string, an exact
numeric value, a date-time, or a missing value (NaN/NaT). -/
inductive Cell where
  | str (s : String)
  | num (q : ℚ)
  | date (d : DateTime)
  | null
  deriving DecidableEq, Repr

/-- One row of the dataframe as it stands after lines 16-32 of app.py:
the four date columns are coerced (unparseable values are null, modelled
by `none`), and the Priority column has been made categorical over
P1..P5, so a value outside that set has become null (`none`).  Columns
the pipeline never reads are carried in `extra`. -/
structure Ticket where
  openedAt : Option DateTime
  respondedAt : Option DateTime
  restoredAt : Option DateTime
  openedDate : Option DateTime
  caseOrigin : String
  priority : Option String
  extra : List (String × Cell)
  deriving DecidableEq, Repr

/-- The fixed priority order of line 24 of app.py. -/
def priority_order : List String := ["P1", "P2", "P3", "P4", "P5"]

/-- Index of a priority in the fixed order (5 when absent). -/
def prioIdx (p : String) : Nat := priority_order.indexOf p

/-- Line 21 of app.py: the Month-Year bucket,
`df["Service Restored Date"].dt.strftime("%b-%Y")`; a null restoration
timestamp yields a null bucket. -/
def monthYear (t : Ticket) : Option String := t.restoredAt.map fmtMonthYear

/-- Function `calc_mtd` of lines 35-40 of app.py: 0 for the two special case
origins (trimmed, lowercased), else the exact minute difference between
response and opening when both are present, else null. -/
def calc_mtd (t : Ticket) : Option ℚ :=
  if pyLower (pyStrip t.caseOrigin) ∈ ["internal call logging", "web"] then some 0
  else
    match t.respondedAt, t.openedAt with
    | some r, some o => some (minutesBetween r o)
    | _, _ => none

/-- Function `calc_mtr` of lines 42-45 of app.py: the exact minute difference
between restoration and opening when both are present (the
`pd.notnull` tests), else null. -/
def calc_mtr (t : Ticket) : Option ℚ :=
  match t.restoredAt, t.openedAt with
  | some r, some o => some (minutesBetween r o)
  | _, _ => none

/-- First-occurrence deduplication, the order-preserving semantics of
pandas `Series.unique()`. -/
def uniqueFirstAux {α : Type} [DecidableEq α] : List α → List α → List α
  | _, [] => []
  | seen, a :: l =>
      if a ∈ seen then uniqueFirstAux seen l
      else a :: uniqueFirstAux (a :: seen) l

/-- First-occurrence deduplication of a list. -/
def uniqueFirst {α : Type} [DecidableEq α] (l : List α) : List α := uniqueFirstAux [] l

/-- Chronological order on "Mon-YYYY" labels via the parsed key. -/
def monthLe (a b : String) : Prop := monthKey a ≤ monthKey b

instance : DecidableRel monthLe := fun _ _ => Nat.decLe _ _

instance : IsTotal String monthLe := ⟨fun _ _ => Nat.le_total _ _⟩

instance : IsTrans String monthLe := ⟨fun _ _ _ => Nat.le_trans⟩

/-- Line 51 of app.py: the month filter options,
`sorted(df["Month-Year"].dropna().unique(), key=pd.to_datetime)` —
distinct non-null buckets in chronological order. -/
def months (df : List Ticket) : List String :=
  List.insertionSort monthLe (uniqueFirst (df.filterMap monthYear))

/-- Line 52 of app.py: the priority filter options, the fixed order
restricted to the priorities present in the data. -/
def priorities (df : List Ticket) : List String :=
  priority_order.filter (fun p => df.any (fun t => t.priority == some p))

/-- Membership of a nullable column value in a selection list; pandas
`isin` is false on a null value. -/
def memOptStr (x : Option String) (l : List String) : Bool :=
  match x with
  | some s => l.contains s
  | none => false

/-- Line 60 of app.py: `df[df["Month-Year"].isin(selected_months) &
df["Priority"].isin(selected_priorities)]`. -/
def filtered_df (df : List Ticket) (sm sp : List String) : List Ticket :=
  df.filter (fun t => memOptStr (monthYear t) sm && memOptStr t.priority sp)

/-- The arithmetic mean of a list of rationals; the empty mean is null
(pandas returns NaN). -/
def listMean (l : List ℚ) : Option ℚ :=
  if l = [] then none else some (l.sum / l.length)

/-- The non-null metric values of the (month, priority) group of a
dataframe: rows with that bucket and that priority, the metric applied,
nulls dropped (pandas count/sum/mean all skip NaN). -/
def groupVals (df : List Ticket) (metric : Ticket → Option ℚ) (m p : String) : List ℚ :=
  (df.filter (fun t => monthYear t == some m && t.priority == some p)).filterMap metric

/-- The distinct non-null Month-Year values of the dataframe, in
first-appearance order: the level pandas factorization assigns to the
Month-Year grouper (null keys dropped). -/
def observedMonths (df : List Ticket) : List String :=
  uniqueFirst (df.filterMap monthYear)

/-- The group-key index of `groupby(["Month-Year", "Priority"])` with
the categorical Priority column: pandas 1.x/2.x (`observed=False`
default) materializes the Cartesian product of the observed Month-Year
values with every category P1..P5, so every observed month carries all
five priorities, including priorities with no rows at all. -/
def productPairs (df : List Ticket) : List (String × String) :=
  (observedMonths df).flatMap (fun m => priority_order.map (fun p => (m, p)))

/-- Sort key of one summary row (month, priority, mean): chronological
month first, then the fixed priority order.  `prioIdx` is at most 5, so
the factor 8 makes the key a lexicographic encoding. -/
def aggKey (r : String × String × Option ℚ) : Nat := monthKey r.1 * 8 + prioIdx r.2.1

/-- Row order of the on-screen summary: by month chronologically, then
by priority in the fixed order (line 66 of app.py). -/
def aggLe (a b : String × String × Option ℚ) : Prop := aggKey a ≤ aggKey b

instance : DecidableRel aggLe := fun _ _ => Nat.decLe _ _

instance : IsTotal (String × String × Option ℚ) aggLe := ⟨fun _ _ => Nat.le_total _ _⟩

instance : IsTrans (String × String × Option ℚ) aggLe := ⟨fun _ _ _ => Nat.le_trans⟩

/-- Function `generate_avg_summary` of lines 63-67 of app.py: group the filtered
data by (Month-Year, Priority) — the categorical groupby emits one row
per product key, with a null (NaN) mean for every empty group — and
sort by month chronologically then by priority in the fixed order. -/
def generate_avg_summary (df : List Ticket) (metric : Ticket → Option ℚ) :
    List (String × String × Option ℚ) :=
  List.insertionSort aggLe
    ((productPairs df).map (fun mp => (mp.1, mp.2, listMean (groupVals df metric mp.1 mp.2))))

/-- Lines 77-78 (and 100-101) of app.py: the row index of the pivoted
on-screen table — the distinct months of the summary, sorted
chronologically. -/
def pivotMonths (df : List Ticket) (metric : Ticket → Option ℚ) : List String :=
  List.insertionSort monthLe (uniqueFirst ((generate_avg_summary df metric).map (·.1)))

/-- One row of the groupby/agg result of lines 127-131 of app.py:
count, sum and mean of the non-null metric values of one observed
(Month-Year, Priority) group. -/
structure AggRow where
  month : String
  prio : String
  count : Nat
  sum : ℚ
  avg : Option ℚ
  deriving DecidableEq, Repr

/-- The aggregate of one group, computed from the group values. -/
def mkAgg (df : List Ticket) (metric : Ticket → Option ℚ) (m p : String) : AggRow :=
  ⟨m, p, (groupVals df metric m p).length, (groupVals df metric m p).sum,
    listMean (groupVals df metric m p)⟩

/-- Lines 127-131 of app.py:
`df.groupby(["Month-Year", "Priority"]).agg(COUNT, SUM, AVG)` — with
the categorical Priority column the grouped result holds one aggregate
row per product key (every observed month with every priority P1..P5);
an empty group yields COUNT 0, SUM 0.0 and a null AVG, the pandas
(0, 0.0, NaN) row.  Rows with a null group key are dropped, and
count/sum/mean all skip null metric values. -/
def aggTable (df : List Ticket) (metric : Ticket → Option ℚ) : List AggRow :=
  (productPairs df).map (fun mp => mkAgg df metric mp.1 mp.2)

/-- Lines 135-137 of app.py: select the aggregate row of one
(month, priority) pair, if the grouped result holds one. -/
def lookupAgg (g : List AggRow) (m p : String) : Option AggRow :=
  g.find? (fun e => e.month == m && e.prio == p)

/-- One cell triad (COUNT, SUM, AVG) of the full summary table; a
`none` component models a NaN written by pandas.  Lines 136-145 of
app.py: the matched aggregate when the lookup finds a grouped row,
else the default triad (0, 0.0, 0.0) of the else-branch — a branch
that is dead for the months of the table, because the categorical
groupby emits a product row for every priority of every observed
month. -/
def summaryCell (df : List Ticket) (metric : Ticket → Option ℚ) (m p : String) :
    Option ℚ × Option ℚ × Option ℚ :=
  match lookupAgg (aggTable df metric) m p with
  | some e => (some (e.count : ℚ), some e.sum, e.avg)
  | none => (some 0, some 0, some 0)

/-- One month row of the full summary: the triad of every priority of
the fixed order, so always 5 triads = 15 data values. -/
def summaryCells (df : List Ticket) (metric : Ticket → Option ℚ) (m : String) :
    List (Option ℚ × Option ℚ × Option ℚ) :=
  priority_order.map (fun p => summaryCell df metric m p)

/-- Line 133 of app.py: the months of the grouped data, sorted
chronologically. -/
def summaryMonths (df : List Ticket) (metric : Ticket → Option ℚ) : List String :=
  List.insertionSort monthLe (uniqueFirst ((aggTable df metric).map (·.month)))

/-- Lines 132-147 of app.py: the month rows of the full summary
table. -/
def summaryRows (df : List Ticket) (metric : Ticket → Option ℚ) :
    List (String × List (Option ℚ × Option ℚ × Option ℚ)) :=
  (summaryMonths df metric).map (fun m => (m, summaryCells df metric m))

/-- The column mean of pandas `DataFrame.mean`: null entries are
skipped; the mean of no entries is null (NaN). -/
def optMean (l : List (Option ℚ)) : Option ℚ := listMean (l.filterMap id)

/-- The default (all-null) cell triad used when reading past the end of
a row. -/
def noCell : Option ℚ × Option ℚ × Option ℚ := (none, none, none)

/-- Line 149 of app.py: `summary_df.mean(numeric_only=True)` — the
column-wise mean over the month rows, componentwise on each of the five
cell triads. -/
def avgRowCells (rows : List (List (Option ℚ × Option ℚ × Option ℚ))) :
    List (Option ℚ × Option ℚ × Option ℚ) :=
  (List.range 5).map (fun j =>
    (optMean (rows.map (fun r => (r.getD j noCell).1)),
     optMean (rows.map (fun r => (r.getD j noCell).2.1)),
     optMean (rows.map (fun r => (r.getD j noCell).2.2))))

/-- Function `full_summary` of lines 126-151 of app.py: the month rows followed
by the synthetic trailing row labeled "AVG" holding the column-wise
means. -/
def full_summary (df : List Ticket) (metric : Ticket → Option ℚ) :
    List (String × List (Option ℚ × Option ℚ × Option ℚ)) :=
  summaryRows df metric ++ [("AVG", avgRowCells ((summaryRows df metric).map (·.2)))]

/-- Serialize a nullable date-time column value to a cell. -/
def dtCell (x : Option DateTime) : Cell :=
  match x with
  | some d => Cell.date d
  | none => Cell.null

/-- Serialize a nullable string column value to a cell. -/
def strCell (x : Option String) : Cell :=
  match x with
  | some s => Cell.str s
  | none => Cell.null

/-- Serialize a nullable numeric column value to a cell. -/
def numCell (x : Option ℚ) : Cell :=
  match x with
  | some q => Cell.num q
  | none => Cell.null

/-- The visible content of one row of the filtered dataframe as written
to the "Main Data" sheet (line 159 of app.py, `index=False`): every
original column plus the derived Month-Year, Final MTD and Final MTR
columns. -/
structure VisRow where
  openedAt : Option DateTime
  respondedAt : Option DateTime
  restoredAt : Option DateTime
  openedDate : Option DateTime
  caseOrigin : String
  priority : Option String
  monthYear : Option String
  finalMTD : Option ℚ
  finalMTR : Option ℚ
  extra : List (String × Cell)
  deriving DecidableEq, Repr

/-- The visible row of a ticket: its columns together with the derived
columns attached at lines 21 and 47-48 of app.py. -/
def visOf (t : Ticket) : VisRow :=
  ⟨t.openedAt, t.respondedAt, t.restoredAt, t.openedDate, t.caseOrigin, t.priority,
    monthYear t, calc_mtd t, calc_mtr t, t.extra⟩

/-- One sheet row of "Main Data": the cells of the visible columns, the
named columns first and the passthrough columns after them (column
order is modelled as fixed; the workbook cell encoding of openpyxl is
abstracted as the faithful `Cell` representation). -/
def writeRow (t : Ticket) : List Cell :=
  dtCell t.openedAt :: dtCell t.respondedAt :: dtCell t.restoredAt :: dtCell t.openedDate ::
    Cell.str t.caseOrigin :: strCell t.priority :: strCell (monthYear t) ::
    numCell (calc_mtd t) :: numCell (calc_mtr t) :: t.extra.map (·.2)

/-- The "Main Data" sheet: one serialized row per filtered record. -/
def writeMain (df : List Ticket) : List (List Cell) := df.map writeRow

/-- Read back a nullable date-time cell. -/
def readDt (c : Cell) : Option (Option DateTime) :=
  match c with
  | Cell.date d => some (some d)
  | Cell.null => some none
  | _ => none

/-- Read back a nullable string cell. -/
def readStr (c : Cell) : Option (Option String) :=
  match c with
  | Cell.str s => some (some s)
  | Cell.null => some none
  | _ => none

/-- Read back a nullable numeric cell. -/
def readNum (c : Cell) : Option (Option ℚ) :=
  match c with
  | Cell.num q => some (some q)
  | Cell.null => some none
  | _ => none

/-- Parse one sheet row back into a visible row, given the passthrough
column names of the sheet header. -/
def readRow (names : List String) (cells : List Cell) : Option VisRow :=
  match cells with
  | c1 :: c2 :: c3 :: c4 :: Cell.str origin :: c6 :: c7 :: c8 :: c9 :: rest =>
      match readDt c1, readDt c2, readDt c3, readDt c4,
        readStr c6, readStr c7, readNum c8, readNum c9 with
      | some o, some r, some s, some od, some pr, some my, some mtd, some mtr =>
          if rest.length = names.length then
            some ⟨o, r, s, od, origin, pr, my, mtd, mtr, names.zip rest⟩
          else none
      | _, _, _, _, _, _, _, _ => none
  | _ => none

/-- Re-load the "Main Data" sheet: parse every row. -/
def readMain (names : List String) (sheet : List (List Cell)) : Option (List VisRow) :=
  sheet.mapM (readRow names)

/-!
## Row-level model of the metric-column assignment

For the frame claim the dataframe row is modelled as pandas holds it: a
list of (column name, cell) pairs.  `df.apply(calc_mtd, axis=1)` reads
the row through column lookups, and the assignments of lines 47-48 of
app.py add (or overwrite) one column each.
-/

/-- A dataframe row as a (column name, cell) association list. -/
abbrev Row : Type := List (String × Cell)

/-- Column lookup `row[c]`; a missing column is modelled as null (the
pipeline only looks up columns that exist). -/
def getCell (r : Row) (c : String) : Cell :=
  match List.find? (fun p => p.1 == c) r with
  | some p => p.2
  | none => Cell.null

/-- Python `str()` of a cell as it occurs in the Case Origin column: a
string is itself, a missing value prints as "nan"; other cell kinds do
not occur in that column and are mapped to the empty string. -/
def strOfCell (c : Cell) : String :=
  match c with
  | Cell.str s => s
  | Cell.null => "nan"
  | _ => ""

/-- Function `calc_mtd` read off the dataframe row exactly as lines 35-40 of
app.py do, through column lookups: the origin test first, then the
null checks on the two timestamp cells. -/
def calc_mtd_row (r : Row) : Option ℚ :=
  if pyLower (pyStrip (strOfCell (getCell r "Case Origin"))) ∈
      ["internal call logging", "web"] then some 0
  else
    match getCell r "Responded Date/Time", getCell r "Date/Time Opened" with
    | Cell.date a, Cell.date b => some (minutesBetween a b)
    | _, _ => none

/-- Function `calc_mtr` read off the dataframe row as lines 42-45 of app.py. -/
def calc_mtr_row (r : Row) : Option ℚ :=
  match getCell r "Service Restored Date", getCell r "Date/Time Opened" with
  | Cell.date a, Cell.date b => some (minutesBetween a b)
  | _, _ => none

/-- Column assignment `df[c] = v` on one row: overwrite the column when
present, else append it. -/
def setCol (r : Row) (c : String) (v : Cell) : Row :=
  if r.any (fun p => p.1 == c) then r.map (fun p => if p.1 == c then (p.1, v) else p)
  else r ++ [(c, v)]

/-- Lines 47-48 of app.py on one row: first attach the Final MTD
column, then attach the Final MTR column computed from the row as it
stands after the first assignment (the second `apply` runs on the
already-extended dataframe). -/
def applyMetricsRow (r : Row) : Row :=
  let r1 := setCol r "Final MTD" (numCell (calc_mtd_row r))
  setCol r1 "Final MTR" (numCell (calc_mtr_row r1))

/-- Lines 47-48 of app.py on the whole dataframe. -/
def applyMetrics (df : List Row) : List Row := df.map applyMetricsRow

/-!
## Concrete sample data

Small concrete tickets used to evaluate the pipeline at specific
inputs (the two-row scenario of the specification among them). -/

/-- 2025-01-01 00:00. -/
def dtJanA : DateTime := ⟨2025, 1, 1, 0, 0, 0⟩

/-- 2025-01-01 00:10. -/
def dtJanB : DateTime := ⟨2025, 1, 1, 0, 10, 0⟩

/-- 2025-01-01 01:00. -/
def dtJanC : DateTime := ⟨2025, 1, 1, 1, 0, 0⟩

/-- 2025-01-01 00:05. -/
def dtJanD : DateTime := ⟨2025, 1, 1, 0, 5, 0⟩

/-- 2025-01-01 00:30. -/
def dtJanE : DateTime := ⟨2025, 1, 1, 0, 30, 0⟩

/-- 2025-12-05 09:30. -/
def dtDecA : DateTime := ⟨2025, 12, 5, 9, 30, 0⟩

/-- Scenario row A of §8 of the spec: origin Web, P1, opened 00:00,
responded 00:10, restored 01:00. -/
def tWeb : Ticket := ⟨some dtJanA, some dtJanB, some dtJanC, none, "Web", some "P1", []⟩

/-- Scenario row B of §8 of the spec: origin Phone, P1, opened 00:00,
responded 00:05, restored 00:30. -/
def tPhone : Ticket := ⟨some dtJanA, some dtJanD, some dtJanE, none, "Phone", some "P1", []⟩

/-- A ticket whose restoration timestamp is null (so its Month-Year
bucket is null), with every other field ordinary. -/
def tNullRestored : Ticket :=
  ⟨some dtJanA, some dtJanB, none, none, "Phone", some "P1", []⟩

/-- A restored ticket with a null opening timestamp: its month bucket
exists but both metrics are null. -/
def tDecNull : Ticket := ⟨none, none, some dtDecA, none, "Phone", some "P2", []⟩

/-- A ticket responded before it was opened (inconsistent data): its
MTTD is negative. -/
def tNeg : Ticket :=
  ⟨some dtJanC, some dtJanA, some dtJanA, none, "Phone", some "P3",
    [("Region", Cell.str "EU")]⟩

/-- The sample dataframe. -/
def demoDf : List Ticket := [tWeb, tPhone, tNullRestored, tDecNull]

/-- A two-row dataframe: one Jan-2025 P1 row with MTTR 60, one
Dec-2025 P2 row with a null MTTR. -/
def demo2 : List Ticket := [tWeb, tDecNull]

/-- A sample dataframe row in the (column name, cell) representation. -/
def demoRow : Row :=
  [("Case Origin", Cell.str "Phone"), ("Date/Time Opened", Cell.date dtJanA),
   ("Responded Date/Time", Cell.date dtJanD), ("Service Restored Date", Cell.null),
   ("Priority", Cell.str "P1")]

/-!
## Helper lemmas
-/

/-- Membership after first-occurrence deduplication, relative to the
already-seen accumulator. -/
theorem mem_uniqueFirstAux {α : Type} [DecidableEq α] (x : α) :
    ∀ (l seen : List α), x ∈ uniqueFirstAux seen l ↔ x ∈ l ∧ x ∉ seen := by
  intro l
  induction l with
  | nil => intro seen; simp [uniqueFirstAux]
  | cons a l ih =>
      intro seen
      simp only [uniqueFirstAux]
      by_cases ha : a ∈ seen
      · rw [if_pos ha, ih seen]
        constructor
        · rintro ⟨hl, hs⟩
          exact ⟨List.mem_cons_of_mem _ hl, hs⟩
        · rintro ⟨hl, hs⟩
          rcases List.mem_cons.mp hl with h | h
          · exact absurd (h ▸ ha) hs
          · exact ⟨h, hs⟩
      · rw [if_neg ha, List.mem_cons, ih (a :: seen)]
        constructor
        · rintro (rfl | ⟨hl, hs⟩)
          · exact ⟨List.mem_cons_self _ _, ha⟩
          · exact ⟨List.mem_cons_of_mem _ hl, fun h => hs (List.mem_cons_of_mem _ h)⟩
        · rintro ⟨hmem, hs⟩
          by_cases hxa : x = a
          · exact Or.inl hxa
          · rcases List.mem_cons.mp hmem with h | h
            · exact absurd h hxa
            · refine Or.inr ⟨h, fun hc => ?_⟩
              rcases List.mem_cons.mp hc with h2 | h2
              · exact hxa h2
              · exact hs h2

/-- Deduplication preserves membership. -/
theorem mem_uniqueFirst {α : Type} [DecidableEq α] (x : α) (l : List α) :
    x ∈ uniqueFirst l ↔ x ∈ l := by
  rw [uniqueFirst, mem_uniqueFirstAux]
  simp

/-- Membership test `isin` of a nullable value, unfolded. -/
theorem memOptStr_iff (x : Option String) (l : List String) :
    memOptStr x l = true ↔ ∃ s, x = some s ∧ s ∈ l := by
  cases x with
  | none => simp [memOptStr]
  | some s => simp [memOptStr, List.elem_iff]

/-- A month is observed exactly when some row carries it as a non-null
bucket. -/
theorem mem_observedMonths (df : List Ticket) (m : String) :
    m ∈ observedMonths df ↔ ∃ t ∈ df, monthYear t = some m := by
  rw [observedMonths, mem_uniqueFirst, List.mem_filterMap]

/-- A group key is in the product index exactly when its month is
observed and its priority is one of the five categories. -/
theorem mem_productPairs (df : List Ticket) (m p : String) :
    (m, p) ∈ productPairs df ↔
      (∃ t ∈ df, monthYear t = some m) ∧ p ∈ priority_order := by
  rw [productPairs, List.mem_flatMap]
  constructor
  · rintro ⟨m2, hm2, hmp⟩
    rcases List.mem_map.mp hmp with ⟨p2, hp2, he⟩
    have h1 : m2 = m := congrArg Prod.fst he
    have h2 : p2 = p := congrArg Prod.snd he
    subst h1
    subst h2
    exact ⟨(mem_observedMonths df m2).mp hm2, hp2⟩
  · rintro ⟨hm, hp⟩
    exact ⟨m, (mem_observedMonths df m).mpr hm, List.mem_map.mpr ⟨p, hp, rfl⟩⟩

/-- The mean of a nonempty list is its sum over its length. -/
theorem listMean_of_ne_nil {l : List ℚ} (h : l ≠ []) :
    listMean l = some (l.sum / l.length) := by
  rw [listMean, if_neg h]

/-- Looking a group key up in the aggregate table yields exactly the
aggregates of that group when the key is in the product index, and
nothing otherwise. -/
theorem lookupAgg_aggTable (df : List Ticket) (metric : Ticket → Option ℚ) (m p : String) :
    lookupAgg (aggTable df metric) m p =
      if (m, p) ∈ productPairs df then some (mkAgg df metric m p) else none := by
  rw [lookupAgg, aggTable]
  induction productPairs df with
  | nil => simp
  | cons a l ih =>
      by_cases hab : a = (m, p)
      · subst hab
        simp [mkAgg]
      · have hb : ((mkAgg df metric a.1 a.2).month == m &&
            (mkAgg df metric a.1 a.2).prio == p) = false := by
          show (a.1 == m && a.2 == p) = false
          by_cases h1 : a.1 = m
          · by_cases h2 : a.2 = p
            · exact absurd (Prod.ext h1 h2) hab
            · simp [h2]
          · simp [h1]
        rw [List.map_cons, List.find?_cons_of_neg _ (by simp [hb]), ih]
        have hmem : ((m, p) ∈ a :: l) ↔ ((m, p) ∈ l) := by
          rw [List.mem_cons]
          simp [Ne.symm hab]
        simp only [hmem]

/-!
## Claim theorems
-/

/-- C1: for every record, `calc_mtd` is 0 whenever the case origin,
trimmed and lowercased, is "internal call logging" or "web", regardless
of every other field; otherwise it is the exact (possibly negative,
unclamped) fractional minute difference between the responded and
opened timestamps when both are present, and null when either is
missing. -/
theorem mttd_characterization (t : Ticket) :
    (pyLower (pyStrip t.caseOrigin) = "internal call logging" ∨
        pyLower (pyStrip t.caseOrigin) = "web" → calc_mtd t = some 0) ∧
    (pyLower (pyStrip t.caseOrigin) ≠ "internal call logging" →
      pyLower (pyStrip t.caseOrigin) ≠ "web" →
      (∀ r o : DateTime, t.respondedAt = some r → t.openedAt = some o →
        calc_mtd t = some (((toSeconds r - toSeconds o : ℤ) : ℚ) / 60)) ∧
      ((t.respondedAt = none ∨ t.openedAt = none) → calc_mtd t = none) ∧
      (∀ r o : DateTime, t.respondedAt = some r → t.openedAt = some o →
        toSeconds r < toSeconds o → ∃ q : ℚ, calc_mtd t = some q ∧ q < 0)) := by
  have hmem : pyLower (pyStrip t.caseOrigin) ∈ ["internal call logging", "web"] ↔
      pyLower (pyStrip t.caseOrigin) = "internal call logging" ∨
        pyLower (pyStrip t.caseOrigin) = "web" := by
    simp
  constructor
  · intro h
    unfold calc_mtd
    rw [if_pos (hmem.mpr h)]
  · intro h1 h2
    have hno : pyLower (pyStrip t.caseOrigin) ∉ ["internal call logging", "web"] := by
      rw [hmem]; rintro (h | h) <;> [exact h1 h; exact h2 h]
    refine ⟨?_, ?_, ?_⟩
    · intro r o hr ho
      unfold calc_mtd
      rw [if_neg hno, hr, ho]
      rfl
    · rintro (hr | ho)
      · unfold calc_mtd
        rw [if_neg hno, hr]
      · unfold calc_mtd
        rw [if_neg hno, ho]
        rcases t.respondedAt <;> rfl
    · intro r o hr ho hlt
      refine ⟨((toSeconds r - toSeconds o : ℤ) : ℚ) / 60,
        by unfold calc_mtd; rw [if_neg hno, hr, ho]; rfl, ?_⟩
      apply div_neg_of_neg_of_pos
      · exact_mod_cast sub_neg.mpr hlt
      · norm_num

/-- Witness for C1: the scenario rows of the spec — the Web-origin row
has MTTD 0, the Phone row opened 00:00 / responded 00:05 has MTTD 5,
and a row responded before opening has a negative MTTD. -/
theorem mttd_characterization_witness :
    calc_mtd tWeb = some 0 ∧
    calc_mtd tPhone = some (((toSeconds dtJanD - toSeconds dtJanA : ℤ) : ℚ) / 60) ∧
    (((toSeconds dtJanD - toSeconds dtJanA : ℤ) : ℚ) / 60 = 5) ∧
    calc_mtd tNullRestored = some (((toSeconds dtJanB - toSeconds dtJanA : ℤ) : ℚ) / 60) ∧
    (∃ q : ℚ, calc_mtd tNeg = some q ∧ q < 0) := by
  refine ⟨(mttd_characterization tWeb).1 (Or.inr (by decide)),
    ((mttd_characterization tPhone).2 (by decide) (by decide)).1 dtJanD dtJanA rfl rfl,
    by norm_num [toSeconds, daysFromCivil, dtJanD, dtJanA],
    ((mttd_characterization tNullRestored).2 (by decide) (by decide)).1 dtJanB dtJanA rfl rfl,
    ((mttd_characterization tNeg).2 (by decide) (by decide)).2.2 dtJanA dtJanC rfl rfl
      (by norm_num [toSeconds, daysFromCivil, dtJanA, dtJanC])⟩

/-- C2: for every record, `calc_mtr` is the exact minute difference
between the restoration and opened timestamps whenever both are
present (negative values not clamped), and is null exactly when either
is missing; the computation is total. -/
theorem mttr_characterization (t : Ticket) :
    (∀ s o : DateTime, t.restoredAt = some s → t.openedAt = some o →
      calc_mtr t = some (((toSeconds s - toSeconds o : ℤ) : ℚ) / 60)) ∧
    (calc_mtr t = none ↔ t.restoredAt = none ∨ t.openedAt = none) ∧
    (∀ s o : DateTime, t.restoredAt = some s → t.openedAt = some o →
      toSeconds s < toSeconds o → ∃ q : ℚ, calc_mtr t = some q ∧ q < 0) := by
  refine ⟨?_, ?_, ?_⟩
  · intro s o hs ho
    unfold calc_mtr
    rw [hs, ho]
    rfl
  · unfold calc_mtr
    rcases hs : t.restoredAt with _ | s <;> rcases ho : t.openedAt with _ | o <;> simp
  · intro s o hs ho hlt
    refine ⟨((toSeconds s - toSeconds o : ℤ) : ℚ) / 60,
      by unfold calc_mtr; rw [hs, ho]; rfl, ?_⟩
    apply div_neg_of_neg_of_pos
    · exact_mod_cast sub_neg.mpr hlt
    · norm_num

/-- C7: the filter keeps exactly the records whose month bucket is
among the selected months and whose priority is among the selected
priorities; an empty selection on either axis yields the empty record
set (no error is possible: the filter is a total function). -/
theorem filter_characterization (df : List Ticket) (sm sp : List String) :
    (∀ t : Ticket, t ∈ filtered_df df sm sp ↔
      t ∈ df ∧ (∃ m, monthYear t = some m ∧ m ∈ sm) ∧
        (∃ p, t.priority = some p ∧ p ∈ sp)) ∧
    (sm = [] → filtered_df df sm sp = []) ∧
    (sp = [] → filtered_df df sm sp = []) := by
  refine ⟨?_, ?_, ?_⟩
  · intro t
    rw [filtered_df, List.mem_filter, Bool.and_eq_true, memOptStr_iff, memOptStr_iff]
  · rintro rfl
    rw [filtered_df, List.filter_eq_nil_iff]
    intro t _
    rcases monthYear t with _ | m <;> simp [memOptStr]
  · rintro rfl
    rw [filtered_df, List.filter_eq_nil_iff]
    intro t _
    rcases hp : t.priority with _ | p <;> simp [memOptStr, hp]

/-- Witness for C7: on the sample dataframe, the Web row passes the
default all-months all-priorities selection, and each empty selection
yields the empty table. -/
theorem filter_characterization_witness :
    tWeb ∈ filtered_df demoDf (months demoDf) (priorities demoDf) ∧
    filtered_df demoDf [] (priorities demoDf) = [] ∧
    filtered_df demoDf (months demoDf) [] = [] := by
  refine ⟨((filter_characterization demoDf (months demoDf) (priorities demoDf)).1 tWeb).mpr
      ⟨by decide, ⟨"Jan-2025", by decide, by decide⟩, ⟨"P1", by decide, by decide⟩⟩,
    (filter_characterization demoDf [] (priorities demoDf)).2.1 rfl,
    (filter_characterization demoDf (months demoDf) []).2.2 rfl⟩

/-- Counterexample to C4 as stated: in the sample dataframe the record
with a null restoration timestamp satisfies the default all-months,
all-priorities selection on the priority axis, yet is absent from the
filtered raw-data view (and hence from the exported Main Data sheet,
which serializes exactly the filtered records): its null bucket is not
a member of any month selection. -/
theorem null_bucket_cex :
    tNullRestored ∈ demoDf ∧
    tNullRestored.restoredAt = none ∧
    monthYear tNullRestored = none ∧
    tNullRestored.priority = some "P1" ∧
    "P1" ∈ priorities demoDf ∧
    filtered_df demoDf (months demoDf) (priorities demoDf) = [tWeb, tPhone, tDecNull] ∧
    tNullRestored ∉ filtered_df demoDf (months demoDf) (priorities demoDf) ∧
    writeMain (filtered_df demoDf (months demoDf) (priorities demoDf)) =
      [writeRow tWeb, writeRow tPhone, writeRow tDecNull] := by
  refine ⟨by decide, rfl, rfl, rfl, by decide, by decide, by decide, rfl⟩

/-- C4 amended: a record with a null restoration timestamp has a null
month bucket; the month option list is built only from non-null
buckets, and for every selection the record is excluded from the
filtered view — and therefore from the exported Main Data sheet — even
though it is present in the unfiltered table. -/
theorem null_bucket_excluded (df : List Ticket) (sm sp : List String) (t : Ticket)
    (_ht : t ∈ df) (hnull : t.restoredAt = none) :
    monthYear t = none ∧
    (∀ s ∈ months df, ∃ u ∈ df, monthYear u = some s) ∧
    t ∉ filtered_df df sm sp := by
  have hmy : monthYear t = none := by rw [monthYear, hnull]; rfl
  refine ⟨hmy, ?_, ?_⟩
  · intro s hs
    rw [months] at hs
    have hs2 : s ∈ uniqueFirst (df.filterMap monthYear) :=
      (List.perm_insertionSort monthLe _).mem_iff.mp hs
    rw [mem_uniqueFirst, List.mem_filterMap] at hs2
    rcases hs2 with ⟨u, hu, he⟩
    exact ⟨u, hu, he⟩
  · intro hmem
    rw [filtered_df, List.mem_filter, Bool.and_eq_true, memOptStr_iff] at hmem
    rcases hmem.2.1 with ⟨s, hsome, _⟩
    rw [hmy] at hsome
    exact Option.noConfusion hsome

/-- Witness for the amended C4: the null-restored sample record is in
the table, its bucket is null, and it is excluded from the filtered
view under the default selection. -/
theorem null_bucket_excluded_witness :
    monthYear tNullRestored = none ∧
    (∀ s ∈ months demoDf, ∃ u ∈ demoDf, monthYear u = some s) ∧
    tNullRestored ∉ filtered_df demoDf (months demoDf) (priorities demoDf) :=
  null_bucket_excluded demoDf (months demoDf) (priorities demoDf) tNullRestored
    (by decide) rfl

/-- C6: every month ordering of the pipeline — the filter option list,
the aggregate summary rows, the pivot row index, the full-summary month
rows — is chronological via the parsed "Mon-YYYY" key (with aggregate
rows ordered by the fixed priority order within a month), and this
order differs from lexical string order: Jan-2025 sorts before Dec-2025
although "Dec-2025" precedes "Jan-2025" lexically. -/
theorem chronological_ordering (df : List Ticket) (metric : Ticket → Option ℚ) :
    List.Sorted monthLe (months df) ∧
    List.Sorted aggLe (generate_avg_summary df metric) ∧
    (∀ a b : String × String × Option ℚ, aggLe a b ↔
      (monthKey a.1 < monthKey b.1 ∨
        (monthKey a.1 = monthKey b.1 ∧ prioIdx a.2.1 ≤ prioIdx b.2.1))) ∧
    List.Sorted monthLe (summaryMonths df metric) ∧
    List.Sorted monthLe (pivotMonths df metric) ∧
    months demoDf = ["Jan-2025", "Dec-2025"] ∧
    monthKey "Jan-2025" < monthKey "Dec-2025" ∧
    strLexLt "Dec-2025" "Jan-2025" := by
  have hidx : ∀ p : String, prioIdx p ≤ 5 := by
    intro p
    rw [prioIdx]
    exact le_trans List.indexOf_le_length (by norm_num [priority_order])
  refine ⟨List.sorted_insertionSort _ _, List.sorted_insertionSort _ _, ?_,
    List.sorted_insertionSort _ _, List.sorted_insertionSort _ _, by decide, by decide,
    by decide⟩
  intro a b
  rw [aggLe, aggKey, aggKey]
  have ha := hidx a.2.1
  have hb := hidx b.2.1
  omega

/-- Witness for C2: the scenario rows — MTTR 60 and 30 for the two
spec rows, null when the opening timestamp is missing, negative when
restored before opening. -/
theorem mttr_characterization_witness :
    calc_mtr tWeb = some (((toSeconds dtJanC - toSeconds dtJanA : ℤ) : ℚ) / 60) ∧
    (((toSeconds dtJanC - toSeconds dtJanA : ℤ) : ℚ) / 60 = 60) ∧
    calc_mtr tPhone = some (((toSeconds dtJanE - toSeconds dtJanA : ℤ) : ℚ) / 60) ∧
    (((toSeconds dtJanE - toSeconds dtJanA : ℤ) : ℚ) / 60 = 30) ∧
    calc_mtr tDecNull = none ∧
    (∃ q : ℚ, calc_mtr tNeg = some q ∧ q < 0) := by
  refine ⟨(mttr_characterization tWeb).1 dtJanC dtJanA rfl rfl,
    by norm_num [toSeconds, daysFromCivil, dtJanC, dtJanA],
    (mttr_characterization tPhone).1 dtJanE dtJanA rfl rfl,
    by norm_num [toSeconds, daysFromCivil, dtJanE, dtJanA],
    (mttr_characterization tDecNull).2.1.mpr (Or.inr rfl),
    ((mttr_characterization tNeg).2.2 dtJanA dtJanC rfl rfl
      (by norm_num [toSeconds, daysFromCivil, dtJanA, dtJanC]))⟩

/-- Counterexample to C3 as stated: in the sample dataframe the pair
(Jan-2025, P2) has no rows, yet its full-summary triad is
(0, 0.0, null) — the categorical groupby emits a product row with a
null mean for the empty group, the lookup of lines 136-141 matches it,
and the zero-default else-branch never runs — so the claimed default
triad (0, 0.0, 0.0) is wrong in its AVG component. -/
theorem absent_pair_default_cex :
    ("Jan-2025", "P2") ∈ productPairs demoDf ∧
    (¬ ∃ t ∈ demoDf, monthYear t = some "Jan-2025" ∧ t.priority = some "P2") ∧
    summaryCell demoDf calc_mtr "Jan-2025" "P2" = (some 0, some 0, none) ∧
    summaryCell demoDf calc_mtr "Jan-2025" "P2" ≠ (some 0, some 0, some 0) := by
  decide

/-- C3 amended: every full-summary row carries 5 cell triads (15 data
values); the grouped index is the product of the observed months with
all five priorities, and for every pair of that index the triad is
(COUNT, SUM, AVG) of the non-null metric values of the group, with
AVG = SUM / COUNT whenever COUNT is positive; a pair of the index
whose group is empty — in particular every combination absent from
the filtered data — gets (0, 0.0, null), not (0, 0.0, 0.0). -/
theorem full_summary_group_stats (df : List Ticket) (metric : Ticket → Option ℚ)
    (m p : String) :
    (∀ row ∈ full_summary df metric, row.2.length = 5) ∧
    ((m, p) ∈ productPairs df ↔
      (∃ t ∈ df, monthYear t = some m) ∧ p ∈ priority_order) ∧
    ((m, p) ∈ productPairs df →
      summaryCell df metric m p =
        (some ((groupVals df metric m p).length : ℚ),
         some (groupVals df metric m p).sum,
         listMean (groupVals df metric m p)) ∧
      (groupVals df metric m p ≠ [] →
        listMean (groupVals df metric m p) =
          some ((groupVals df metric m p).sum / ((groupVals df metric m p).length : ℚ))) ∧
      (groupVals df metric m p = [] →
        summaryCell df metric m p = (some 0, some 0, none))) := by
  refine ⟨?_, mem_productPairs df m p, ?_⟩
  · intro row hrow
    rw [full_summary] at hrow
    rcases List.mem_append.mp hrow with h | h
    · rw [summaryRows] at h
      rcases List.mem_map.mp h with ⟨m2, _, he⟩
      rw [← he]
      simp [summaryCells, priority_order]
    · rcases List.mem_singleton.mp h with rfl
      simp [avgRowCells]
  · intro hmem
    have hcell : summaryCell df metric m p =
        (some ((groupVals df metric m p).length : ℚ),
         some (groupVals df metric m p).sum,
         listMean (groupVals df metric m p)) := by
      rw [summaryCell, lookupAgg_aggTable, if_pos hmem, mkAgg]
    refine ⟨hcell, fun hne => by rw [listMean, if_neg hne], fun hnull => ?_⟩
    rw [hcell, hnull]
    rw [listMean]
    norm_num

/-- Witness for C3: on the sample dataframe the observed (Jan-2025,
P1) group yields count/sum/mean of its non-null MTTR values with
AVG = SUM / COUNT, and the empty (Jan-2025, P2) group gets the
(0, 0.0, null) triad. -/
theorem full_summary_group_stats_witness :
    summaryCell demoDf calc_mtr "Jan-2025" "P1" =
      (some ((groupVals demoDf calc_mtr "Jan-2025" "P1").length : ℚ),
       some (groupVals demoDf calc_mtr "Jan-2025" "P1").sum,
       listMean (groupVals demoDf calc_mtr "Jan-2025" "P1")) ∧
    listMean (groupVals demoDf calc_mtr "Jan-2025" "P1") =
      some ((groupVals demoDf calc_mtr "Jan-2025" "P1").sum /
        ((groupVals demoDf calc_mtr "Jan-2025" "P1").length : ℚ)) ∧
    summaryCell demoDf calc_mtr "Jan-2025" "P2" = (some 0, some 0, none) := by
  refine ⟨((full_summary_group_stats demoDf calc_mtr "Jan-2025" "P1").2.2 (by decide)).1,
    ((full_summary_group_stats demoDf calc_mtr "Jan-2025" "P1").2.2 (by decide)).2.1
      (by rw [show groupVals demoDf calc_mtr "Jan-2025" "P1" =
            [minutesBetween dtJanC dtJanA, minutesBetween dtJanE dtJanA] from rfl]
          exact List.cons_ne_nil _ _),
    ((full_summary_group_stats demoDf calc_mtr "Jan-2025" "P2").2.2 (by decide)).2.2
      (by decide)⟩

/-- Counterexample to C9 as stated: in the sample dataframe the
(Dec-2025, P2) group exists but all its metric values are null, and
the (Dec-2025, P1) combination is absent; both get the identical triad
(0, 0.0, null), so the all-null present group is not distinguishable
from the absent combination, and the absent combination's triad is not
(0, 0.0, 0.0). -/
theorem allnull_not_distinguishable_cex :
    (∃ t ∈ demoDf, monthYear t = some "Dec-2025" ∧ t.priority = some "P2") ∧
    groupVals demoDf calc_mtr "Dec-2025" "P2" = [] ∧
    (¬ ∃ t ∈ demoDf, monthYear t = some "Dec-2025" ∧ t.priority = some "P1") ∧
    summaryCell demoDf calc_mtr "Dec-2025" "P2" = (some 0, some 0, none) ∧
    summaryCell demoDf calc_mtr "Dec-2025" "P2" =
      summaryCell demoDf calc_mtr "Dec-2025" "P1" ∧
    summaryCell demoDf calc_mtr "Dec-2025" "P1" ≠ (some 0, some 0, some 0) := by
  decide

/-- C9 amended: every pair of the grouped product index whose group
has no non-null metric values — whether rows exist with all-null
metrics or no rows at all — is reported as COUNT 0, SUM 0.0 and a null
AVG; an all-null present group is therefore identical to, and not
distinguishable from, an absent combination. -/
theorem allnull_group_triad (df : List Ticket) (metric : Ticket → Option ℚ)
    (m p : String)
    (hmp : (m, p) ∈ productPairs df)
    (hnull : groupVals df metric m p = []) :
    summaryCell df metric m p = (some 0, some 0, none) ∧
    ∀ m2 p2 : String, (m2, p2) ∈ productPairs df → groupVals df metric m2 p2 = [] →
      summaryCell df metric m p = summaryCell df metric m2 p2 := by
  have hcell : ∀ m3 p3 : String, (m3, p3) ∈ productPairs df →
      groupVals df metric m3 p3 = [] →
      summaryCell df metric m3 p3 = (some 0, some 0, none) := by
    intro m3 p3 hm3 hn3
    rw [summaryCell, lookupAgg_aggTable, if_pos hm3, mkAgg, hn3]
    rw [listMean]
    norm_num
  refine ⟨hcell m p hmp hnull, fun m2 p2 h2 hn2 => ?_⟩
  rw [hcell m p hmp hnull, hcell m2 p2 h2 hn2]

/-- Witness for the amended C9: the all-null (Dec-2025, P2) group and
the absent (Dec-2025, P1) combination of the sample dataframe both get
the (0, 0.0, null) triad. -/
theorem allnull_group_triad_witness :
    summaryCell demoDf calc_mtr "Dec-2025" "P2" = (some 0, some 0, none) ∧
    summaryCell demoDf calc_mtr "Dec-2025" "P2" =
      summaryCell demoDf calc_mtr "Dec-2025" "P1" := by
  have h := allnull_group_triad demoDf calc_mtr "Dec-2025" "P2" (by decide) (by decide)
  exact ⟨h.1, h.2 "Dec-2025" "P1" (by decide) (by decide)⟩

/-- Both count and sum components of any summary cell are non-null
(both branches of the cell construction write a number there). -/
theorem summaryCell_count_sum_isSome (df : List Ticket) (metric : Ticket → Option ℚ)
    (m p : String) :
    (summaryCell df metric m p).1.isSome ∧ (summaryCell df metric m p).2.1.isSome := by
  rw [summaryCell]
  rcases lookupAgg (aggTable df metric) m p with _ | e <;> simp

/-- Counterexample to C5 as stated: on a two-month dataframe whose
(Dec-2025, P1) combination is absent, the month rows hold AVG cells
[60, null] in the P1 MTTR-AVG column — the absent combination
contributes a null, not a 0.0 default — and the trailing AVG row holds
the skipna mean 60 of that column, not the zero-blended mean
(60 + 0) / 2 = 30 the claim describes. -/
theorem avg_row_zero_blending_cex :
    summaryCell demo2 calc_mtr "Dec-2025" "P1" = (some 0, some 0, none) ∧
    (summaryMonths demo2 calc_mtr).length = 2 ∧
    ((avgRowCells ((summaryRows demo2 calc_mtr).map Prod.snd)).getD 0 noCell).2.2 =
      some 60 ∧
    some (60 : ℚ) ≠ some (((60 : ℚ) + 0) / 2) := by
  have hx : minutesBetween dtJanC dtJanA = 60 := by
    norm_num [minutesBetween, toSeconds, daysFromCivil, dtJanC, dtJanA]
  have hl1 : listMean [(60 : ℚ)] = some 60 := by
    rw [listMean]
    norm_num
  refine ⟨by decide, by decide, ?_, by norm_num⟩
  have h0 : ((avgRowCells ((summaryRows demo2 calc_mtr).map Prod.snd)).getD 0 noCell).2.2 =
      optMean [listMean (groupVals demo2 calc_mtr "Jan-2025" "P1"),
               listMean (groupVals demo2 calc_mtr "Dec-2025" "P1")] := rfl
  have hv1 : groupVals demo2 calc_mtr "Jan-2025" "P1" = [minutesBetween dtJanC dtJanA] := rfl
  have hv2 : groupVals demo2 calc_mtr "Dec-2025" "P1" = ([] : List ℚ) := rfl
  have hl2 : listMean ([] : List ℚ) = none := rfl
  rw [h0, hv1, hv2, hx, hl1, hl2, optMean]
  have hfm : List.filterMap id [some (60 : ℚ), none] = [(60 : ℚ)] := rfl
  rw [hfm, hl1]

/-- C5 amended: the full summary is the month rows followed by exactly one
trailing row labeled "AVG"; each component of each of its five cell
triads is the pandas column mean of that component over the month rows
with null cells skipped — so the zero COUNT and SUM values of empty
groups are blended in, while their null AVG cells are not — and on a
column whose cells are all non-null, which the COUNT and SUM columns
always are, that mean is the plain arithmetic mean, sum over number of
month rows. -/
theorem avg_row_is_column_mean (df : List Ticket) (metric : Ticket → Option ℚ) :
    full_summary df metric =
      summaryRows df metric ++
        [("AVG", avgRowCells ((summaryRows df metric).map Prod.snd))] ∧
    (full_summary df metric).map Prod.fst = summaryMonths df metric ++ ["AVG"] ∧
    (∀ j, j < 5 →
      (avgRowCells ((summaryRows df metric).map Prod.snd)).getD j noCell =
        (optMean (((summaryRows df metric).map Prod.snd).map (fun r => (r.getD j noCell).1)),
         optMean (((summaryRows df metric).map Prod.snd).map (fun r => (r.getD j noCell).2.1)),
         optMean (((summaryRows df metric).map Prod.snd).map (fun r => (r.getD j noCell).2.2)))) ∧
    (∀ row ∈ summaryRows df metric, ∀ j, j < 5 →
      ((row.2.getD j noCell).1).isSome ∧ ((row.2.getD j noCell).2.1).isSome) ∧
    (∀ (col : List (Option ℚ)) (vals : List ℚ), col = vals.map some → vals ≠ [] →
      optMean col = some (vals.sum / (vals.length : ℚ))) := by
  refine ⟨rfl, ?_, ?_, ?_, ?_⟩
  · rw [full_summary, List.map_append, summaryRows, List.map_map]
    have hid : (Prod.fst ∘ fun m => (m, summaryCells df metric m)) = id := rfl
    rw [hid, List.map_id]
    rfl
  · intro j hj
    interval_cases j <;> rfl
  · intro row hrow j hj
    rw [summaryRows] at hrow
    rcases List.mem_map.mp hrow with ⟨m2, _, he⟩
    rw [← he]
    have h5 : (summaryCells df metric m2).getD j noCell =
        summaryCell df metric m2 (priority_order.getD j "") := by
      interval_cases j <;> rfl
    rw [h5]
    exact summaryCell_count_sum_isSome df metric m2 _
  · intro col vals hcol hne
    subst hcol
    rw [optMean, List.filterMap_map]
    have hfm : List.filterMap (id ∘ some) vals = vals := by
      have hco : (id ∘ some : ℚ → Option ℚ) = some := rfl
      rw [hco, List.filterMap_some]
    rw [hfm, listMean, if_neg hne]

/-- Witness for C5: on the sample dataframe, the trailing row equals
the componentwise column means at column 0, the (Jan-2025) month row
has non-null COUNT and SUM components there, and a concrete all-some
column has plain mean sum over length. -/
theorem avg_row_is_column_mean_witness :
    (avgRowCells ((summaryRows demoDf calc_mtr).map Prod.snd)).getD 0 noCell =
      (optMean (((summaryRows demoDf calc_mtr).map Prod.snd).map
          (fun r => (r.getD 0 noCell).1)),
       optMean (((summaryRows demoDf calc_mtr).map Prod.snd).map
          (fun r => (r.getD 0 noCell).2.1)),
       optMean (((summaryRows demoDf calc_mtr).map Prod.snd).map
          (fun r => (r.getD 0 noCell).2.2))) ∧
    ((("Jan-2025", summaryCells demoDf calc_mtr "Jan-2025") :
        String × List (Option ℚ × Option ℚ × Option ℚ)).2.getD 0 noCell).1.isSome ∧
    optMean [some (3 : ℚ), some 5] =
      some (([(3 : ℚ), 5].sum) / (([(3 : ℚ), 5].length : ℚ))) := by
  have hrows : summaryRows demoDf calc_mtr =
      [("Jan-2025", summaryCells demoDf calc_mtr "Jan-2025"),
       ("Dec-2025", summaryCells demoDf calc_mtr "Dec-2025")] := rfl
  have h := avg_row_is_column_mean demoDf calc_mtr
  refine ⟨h.2.2.1 0 (by norm_num), ?_, ?_⟩
  · exact (h.2.2.2.1 ("Jan-2025", summaryCells demoDf calc_mtr "Jan-2025")
      (by rw [hrows]; exact List.mem_cons_self _ _) 0 (by norm_num)).1
  · exact h.2.2.2.2 [some (3 : ℚ), some 5] [(3 : ℚ), 5] rfl (by simp)

/-- Reading back a serialized nullable date-time cell recovers it. -/
theorem readDt_dtCell (x : Option DateTime) : readDt (dtCell x) = some x := by
  cases x <;> rfl

/-- Reading back a serialized nullable string cell recovers it. -/
theorem readStr_strCell (x : Option String) : readStr (strCell x) = some x := by
  cases x <;> rfl

/-- Reading back a serialized nullable numeric cell recovers it. -/
theorem readNum_numCell (x : Option ℚ) : readNum (numCell x) = some x := by
  cases x <;> rfl

/-- Parsing a serialized row recovers the visible row, provided the
sheet header lists the passthrough column names of that row. -/
theorem readRow_writeRow (names : List String) (t : Ticket)
    (h : t.extra.map Prod.fst = names) :
    readRow names (writeRow t) = some (visOf t) := by
  have hlen : (t.extra.map (fun x => x.2)).length = names.length := by
    rw [← h, List.length_map, List.length_map]
  have hzip : names.zip (t.extra.map (fun x => x.2)) = t.extra := by
    rw [← h, List.zip_map' Prod.fst (fun x => x.2) t.extra]
    simp
  simp [writeRow, readRow, readDt_dtCell, readStr_strCell, readNum_numCell, hlen, hzip,
    visOf]

/-- Round trip of the serialized sheet rows of any record list whose
passthrough columns agree with the header. -/
theorem readMain_writeMain (names : List String) (ts : List Ticket)
    (h : ∀ t ∈ ts, t.extra.map Prod.fst = names) :
    readMain names (writeMain ts) = some (ts.map visOf) := by
  induction ts with
  | nil => rfl
  | cons t ts ih =>
      have ih2 := ih (fun u hu => h u (List.mem_cons_of_mem _ hu))
      rw [readMain, writeMain] at ih2
      rw [readMain, writeMain, List.map_cons, List.map_cons, List.mapM_cons,
        readRow_writeRow names t (h t (List.mem_cons_self _ _)), ih2]
      rfl

/-- C8: serializing the filtered record set to the Main Data sheet and
re-loading that sheet reproduces exactly the visible columns of every
filtered record — all original columns plus the derived Month-Year,
Final MTD and Final MTR columns (the openpyxl byte encoding is
abstracted as the faithful cell-level representation). -/
theorem main_data_roundtrip (df : List Ticket) (sm sp : List String) (names : List String)
    (hnames : ∀ t ∈ filtered_df df sm sp, t.extra.map Prod.fst = names) :
    readMain names (writeMain (filtered_df df sm sp)) =
      some ((filtered_df df sm sp).map visOf) ∧
    ∀ t ∈ filtered_df df sm sp,
      visOf t = ⟨t.openedAt, t.respondedAt, t.restoredAt, t.openedDate, t.caseOrigin,
        t.priority, monthYear t, calc_mtd t, calc_mtr t, t.extra⟩ :=
  ⟨readMain_writeMain names (filtered_df df sm sp) hnames, fun _ _ => rfl⟩

/-- Witness for C8: round trip of the filtered sample dataframe under
the default selection. -/
theorem main_data_roundtrip_witness :
    readMain [] (writeMain (filtered_df demoDf (months demoDf) (priorities demoDf))) =
      some ((filtered_df demoDf (months demoDf) (priorities demoDf)).map visOf) :=
  (main_data_roundtrip demoDf (months demoDf) (priorities demoDf) [] (by decide)).1

/-- Overwriting the column named `c` rewrites exactly the first match
the lookup would find. -/
theorem find?_overwrite (r : Row) (c : String) (v : Cell) :
    List.find? (fun p => p.1 == c) (r.map (fun p => if p.1 == c then (p.1, v) else p)) =
      (List.find? (fun p => p.1 == c) r).map (fun p => (p.1, v)) := by
  rw [List.find?_map]
  have hpf : ((fun p : String × Cell => p.1 == c) ∘ fun p => if p.1 == c then (p.1, v) else p)
      = fun p : String × Cell => p.1 == c := by
    funext p
    by_cases hp : p.1 = c <;> simp [hp]
  rw [hpf]
  rcases hf : List.find? (fun p : String × Cell => p.1 == c) r with _ | p
  · rfl
  · have hp := List.find?_some hf
    rw [beq_iff_eq] at hp
    simp [hp]

/-- Overwriting one column leaves lookups of every other column
unchanged. -/
theorem find?_overwrite_ne (r : Row) (c : String) (v : Cell) (c2 : String) (h : c2 ≠ c) :
    List.find? (fun p => p.1 == c2) (r.map (fun p => if p.1 == c then (p.1, v) else p)) =
      List.find? (fun p => p.1 == c2) r := by
  rw [List.find?_map]
  have hpf : ((fun p : String × Cell => p.1 == c2) ∘ fun p => if p.1 == c then (p.1, v) else p)
      = fun p : String × Cell => p.1 == c2 := by
    funext p
    by_cases hp : p.1 = c <;> simp [hp]
  rw [hpf]
  rcases hf : List.find? (fun p : String × Cell => p.1 == c2) r with _ | p
  · rfl
  · have hp2 := List.find?_some hf
    rw [beq_iff_eq] at hp2
    have hpc : ¬ (p.1 = c) := by
      rw [hp2]
      exact h
    simp [hpc]

/-- A lookup of a column other than the assigned one is unchanged by
the assignment. -/
theorem getCell_setCol_ne (r : Row) (c : String) (v : Cell) (c2 : String) (h : c2 ≠ c) :
    getCell (setCol r c v) c2 = getCell r c2 := by
  rw [setCol]
  by_cases hany : r.any (fun p => p.1 == c) = true
  · rw [if_pos hany, getCell, getCell, find?_overwrite_ne r c v c2 h]
  · rw [if_neg hany, getCell, getCell]
    have hcc : ¬ (c = c2) := fun he => h he.symm
    have happ : List.find? (fun p => p.1 == c2) (r ++ [(c, v)]) =
        List.find? (fun p => p.1 == c2) r := by
      simp [List.find?_append, hcc]
    rw [happ]

/-- Appending a fresh column is found after all non-matching pairs. -/
theorem find?_append_fresh (c : String) (v : Cell) :
    ∀ r : Row, (∀ p ∈ r, ¬ ((p.1 == c) = true)) →
      List.find? (fun p => p.1 == c) (r ++ [(c, v)]) = some (c, v) := by
  intro r
  induction r with
  | nil =>
      intro _
      simp
  | cons a r ih =>
      intro hnone
      have ha : (a.1 == c) = false :=
        Bool.not_eq_true _ ▸ hnone a (List.mem_cons_self _ _)
      have ih2 := ih (fun p hp => hnone p (List.mem_cons_of_mem _ hp))
      simp [ha, ih2]

/-- A lookup of the assigned column yields the assigned value. -/
theorem getCell_setCol_self (r : Row) (c : String) (v : Cell) :
    getCell (setCol r c v) c = v := by
  rw [setCol]
  by_cases hany : r.any (fun p => p.1 == c) = true
  · rw [if_pos hany, getCell, find?_overwrite]
    rcases List.any_eq_true.mp hany with ⟨p, hp, hpc⟩
    have hsome : (List.find? (fun p => p.1 == c) r).isSome := by
      rw [List.find?_isSome]
      exact ⟨p, hp, hpc⟩
    rcases Option.isSome_iff_exists.mp hsome with ⟨a, hfind⟩
    rw [hfind]
    rfl
  · rw [if_neg hany, getCell]
    have hnone : ∀ p ∈ r, ¬ ((p.1 == c) = true) := by
      intro p hp hc
      exact hany (List.any_eq_true.mpr ⟨p, hp, hc⟩)
    rw [find?_append_fresh c v r hnone]

/-- The assignment appends the column name when it was absent. -/
theorem names_setCol_absent (r : Row) (c : String) (v : Cell)
    (h : c ∉ r.map Prod.fst) :
    (setCol r c v).map Prod.fst = r.map Prod.fst ++ [c] := by
  rw [setCol]
  have hany : ¬ (r.any (fun p => p.1 == c) = true) := by
    rw [List.any_eq_true]
    rintro ⟨p, hp, hpc⟩
    exact h (List.mem_map.mpr ⟨p, hp, beq_iff_eq.mp hpc⟩)
  rw [if_neg hany, List.map_append]
  rfl

/-- The MTTR calculator reads only the two timestamp columns, so the
assignment of the Final MTD column does not change its value. -/
theorem calc_mtr_row_setCol (r : Row) (v : Cell) :
    calc_mtr_row (setCol r "Final MTD" v) = calc_mtr_row r := by
  rw [calc_mtr_row, calc_mtr_row,
    getCell_setCol_ne r "Final MTD" v "Service Restored Date" (by decide),
    getCell_setCol_ne r "Final MTD" v "Date/Time Opened" (by decide)]

/-- C10: attaching the two metric columns is frame-preserving — for
every row of the dataframe, the value of every column other than Final
MTD and Final MTR is unchanged, the two new columns hold exactly the
calculator results read off the original row, and when the two names
were absent the column list is the original one extended by exactly
those two names. -/
theorem metrics_frame_preserving (df : List Row) (r : Row) (hr : r ∈ df) :
    applyMetricsRow r ∈ applyMetrics df ∧
    (∀ c : String, c ≠ "Final MTD" → c ≠ "Final MTR" →
      getCell (applyMetricsRow r) c = getCell r c) ∧
    ("Final MTD" ∉ r.map Prod.fst → "Final MTR" ∉ r.map Prod.fst →
      (applyMetricsRow r).map Prod.fst =
        r.map Prod.fst ++ ["Final MTD", "Final MTR"]) ∧
    getCell (applyMetricsRow r) "Final MTD" = numCell (calc_mtd_row r) ∧
    getCell (applyMetricsRow r) "Final MTR" = numCell (calc_mtr_row r) := by
  refine ⟨List.mem_map_of_mem _ hr, ?_, ?_, ?_, ?_⟩
  · intro c h1 h2
    rw [applyMetricsRow, getCell_setCol_ne _ "Final MTR" _ c h2,
      getCell_setCol_ne _ "Final MTD" _ c h1]
  · intro h1 h2
    rw [applyMetricsRow, names_setCol_absent, names_setCol_absent r "Final MTD" _ h1,
      List.append_assoc]
    · rfl
    · rw [names_setCol_absent r "Final MTD" _ h1, List.mem_append]
      rintro (hc | hc)
      · exact h2 hc
      · exact absurd (List.mem_singleton.mp hc) (by decide)
  · rw [applyMetricsRow, getCell_setCol_ne _ "Final MTR" _ "Final MTD" (by decide),
      getCell_setCol_self]
  · rw [applyMetricsRow, getCell_setCol_self, calc_mtr_row_setCol]

/-- Witness for C10: on a concrete sample row the Case Origin column is
unchanged, the column list is extended by exactly the two metric
columns, and the two new columns hold the calculator results. -/
theorem metrics_frame_preserving_witness :
    applyMetricsRow demoRow ∈ applyMetrics [demoRow] ∧
    getCell (applyMetricsRow demoRow) "Case Origin" = getCell demoRow "Case Origin" ∧
    (applyMetricsRow demoRow).map Prod.fst =
      demoRow.map Prod.fst ++ ["Final MTD", "Final MTR"] ∧
    getCell (applyMetricsRow demoRow) "Final MTD" = numCell (calc_mtd_row demoRow) ∧
    getCell (applyMetricsRow demoRow) "Final MTR" = numCell (calc_mtr_row demoRow) := by
  have h := metrics_frame_preserving [demoRow] demoRow (List.mem_cons_self _ _)
  exact ⟨h.1, h.2.1 "Case Origin" (by decide) (by decide),
    h.2.2.1 (by decide) (by decide), h.2.2.2.1, h.2.2.2.2⟩

end MTTD
